import Mathlib

/-!
Shallow embedding of the blog application server
(`server/src/utils/auth.js`, `server/src/middleware/auth.js`,
`server/src/models/Post.js`, `server/src/routes/posts.js`).

JavaScript strings are modelled as Lean `String` (all literals involved are
ASCII, where JS UTF-16 length agrees with codepoint length), Mongo ObjectIds
as plain strings, and `Date` timestamps as `Nat` (milliseconds); `null` and
absent fields are `Option.none`.
-/

/- ===================== utils/auth.js : validatePasswordStrength ========= -/

/-- A JavaScript value passed as the `password` argument of
`validatePasswordStrength`: `null`, `undefined`, or a string. -/
inductive JSStr where
  | null : JSStr
  | undefined : JSStr
  | str : String → JSStr
deriving DecidableEq, Repr

/-- JS string coercion, as performed by `RegExp.test` on a non-string
argument: `String(null) = "null"`, `String(undefined) = "undefined"`. -/
def JSStr.jsToString : JSStr → String
  | .null => "null"
  | .undefined => "undefined"
  | .str s => s

/-- The test `!password || password.length < 8` of `validatePasswordStrength`.
For `null`, `undefined` and `""` the first disjunct is true and `.length` is
never evaluated (JS short-circuit), hence no exception. -/
def lengthRuleFails : JSStr → Bool
  | .str s => s == "" || decide (s.length < 8)
  | .null => true
  | .undefined => true

/-- Character class `[a-z]` of the JS regex `/(?=.*[a-z])/`. -/
def isLowerAZ (c : Char) : Bool := decide ('a' ≤ c) && decide (c ≤ 'z')

/-- Character class `[A-Z]` of the JS regex `/(?=.*[A-Z])/`. -/
def isUpperAZ (c : Char) : Bool := decide ('A' ≤ c) && decide (c ≤ 'Z')

/-- Character class `\d` (equivalently `[0-9]`) of the JS regex `/(?=.*\d)/`. -/
def isDigit09 (c : Char) : Bool := decide ('0' ≤ c) && decide (c ≤ '9')

/-- Character class `[@$!%*?&]` of the JS regex `/(?=.*[@$!%*?&])/`. -/
def isSpecialChar (c : Char) : Bool :=
  c == '@' || c == '$' || c == '!' || c == '%' || c == '*' || c == '?' || c == '&'

/-- `/(?=.*[a-z])/.test(password)`: some character of the (coerced) string
is a lowercase ASCII letter (`String.data` is the character list). -/
def testLower (p : JSStr) : Bool := p.jsToString.data.any isLowerAZ

/-- `/(?=.*[A-Z])/.test(password)`. -/
def testUpper (p : JSStr) : Bool := p.jsToString.data.any isUpperAZ

/-- `/(?=.*\d)/.test(password)`. -/
def testDigit (p : JSStr) : Bool := p.jsToString.data.any isDigit09

/-- `/(?=.*[@$!%*?&])/.test(password)`. -/
def testSpecial (p : JSStr) : Bool := p.jsToString.data.any isSpecialChar

def msgLength : String := "Password must be at least 8 characters long"

def msgLower : String := "Password must contain at least one lowercase letter"

def msgUpper : String := "Password must contain at least one uppercase letter"

def msgNumber : String := "Password must contain at least one number"

def msgSpecial : String := "Password must contain at least one special character (@$!%*?&)"

/-- Result shape `{ isValid, errors }` of `validatePasswordStrength`. -/
structure StrengthResult where
  isValid : Bool
  errors : List String
deriving DecidableEq, Repr

/-- `utils/auth.js` `validatePasswordStrength`: pushes one message per
violated rule onto `errors`, in source order, then sets
`isValid = (errors.length === 0)`. -/
def validatePasswordStrength (password : JSStr) : StrengthResult :=
  let errors : List String :=
    (if lengthRuleFails password then [msgLength] else []) ++
    (if testLower password then [] else [msgLower]) ++
    (if testUpper password then [] else [msgUpper]) ++
    (if testDigit password then [] else [msgNumber]) ++
    (if testSpecial password then [] else [msgSpecial])
  { isValid := errors.length == 0, errors := errors }

/- ===================== utils/auth.js & middleware/auth.js : hasRole ===== -/

/-- The `requiredRoles` argument of `hasRole`: a single role string or an
array of role strings (`Array.isArray` distinguishes the two). -/
inductive RoleReq where
  | single : String → RoleReq
  | multiple : List String → RoleReq
deriving DecidableEq, Repr

/-- The role list `Array.isArray(requiredRoles) ? requiredRoles : [requiredRoles]`. -/
def RoleReq.toList : RoleReq → List String
  | .single r => [r]
  | .multiple rs => rs

/-- The slice of a user document that `hasRole` inspects. `role = none`
models a missing, null or undefined `role` attribute. -/
structure AuthUser where
  role : Option String
deriving DecidableEq, Repr

/-- `hasRole(user, requiredRoles)` from `utils/auth.js` (the copy in
`middleware/auth.js` is identical): `if (!user || !user.role) return false;`
— note that an empty-string role is falsy in JS and takes this early
return — then `roles.includes(user.role)`. Never throws. -/
def hasRole (user : Option AuthUser) (requiredRoles : RoleReq) : Bool :=
  match user with
  | none => false
  | some u =>
    match u.role with
    | none => false
    | some r => if r = "" then false else requiredRoles.toList.contains r

/- ===================== utils/auth.js : generateToken / verifyToken ====== -/

/-- The payload `{ id, username, email, role }` that `generateToken` signs. -/
structure TokenPayload where
  id : String
  username : String
  email : String
  role : String
deriving DecidableEq, Repr

/-- The claims carried by a signed JWT: the payload plus issued-at, expiry
(seconds), issuer and audience registered claims. -/
structure JwtClaims where
  payload : TokenPayload
  iat : Nat
  exp : Nat
  iss : String
  aud : String
deriving DecidableEq, Repr

/-- Model of an HMAC signature over the serialized claims: a signature is
valid for a key and a claims record exactly when it was produced from that
key and those claims (unforgeability of the external `jsonwebtoken`
collaborator is assumed, as the spec treats it as out of scope). -/
structure JwtSig where
  key : String
  signed : JwtClaims
deriving DecidableEq, Repr

/-- A token as transmitted: claims plus an attached signature. A tampered
token is one whose `sig` was not produced from the presented claims. -/
structure Jwt where
  claims : JwtClaims
  sig : JwtSig
deriving DecidableEq, Repr

/-- `jwt.sign(payload, key, { expiresIn, issuer, audience })` at time `now`
(seconds): stamps `iat = now`, `exp = now + expiresIn` and signs. -/
def jwtSign (key : String) (payload : TokenPayload) (now expiresIn : Nat)
    (iss aud : String) : Jwt :=
  let c : JwtClaims :=
    { payload := payload, iat := now, exp := now + expiresIn, iss := iss, aud := aud }
  { claims := c, sig := { key := key, signed := c } }

/-- `jwt.verify(token, key)` at time `now`: rejects a bad signature, then
rejects expired claims (`exp ≤ now`), else returns the decoded claims. -/
def jwtVerify (key : String) (t : Jwt) (now : Nat) : Except String JwtClaims :=
  if t.sig ≠ { key := key, signed := t.claims } then .error "invalid signature"
  else if t.claims.exp ≤ now then .error "jwt expired"
  else .ok t.claims

/-- Default of `process.env.JWT_SECRET`. -/
def JWT_SECRET : String := "your-secret-key"

/-- Default of `process.env.JWT_EXPIRES_IN` = `7d`, in seconds. -/
def sevenDays : Nat := 7 * 24 * 60 * 60

/-- `utils/auth.js` `generateToken(user)`: signs `{id, username, email, role}`
with `JWT_SECRET`, expiry 7 days, issuer `mern-testing-app`, audience
`mern-testing-users`. -/
def generateToken (user : TokenPayload) (now : Nat) : Jwt :=
  jwtSign JWT_SECRET user now sevenDays "mern-testing-app" "mern-testing-users"

/-- `utils/auth.js` `verifyToken(token)`: `jwt.verify(token, JWT_SECRET)`;
any library failure is rethrown as the single message below. -/
def verifyToken (t : Jwt) (now : Nat) : Except String JwtClaims :=
  match jwtVerify JWT_SECRET t now with
  | .ok c => .ok c
  | .error _ => .error "Invalid or expired token"

/- ===================== models/Post.js ================================== -/

/-- The `status` enum of the post schema. -/
inductive PostStatus where
  | draft | pending | published | rejected | archived
deriving DecidableEq, Repr

/-- A post document, restricted to the schema paths the routes and instance
methods below touch (seo, featuredImage and the counters other than the
like count behave like the plain fields kept here and are elided). -/
structure Post where
  title : String
  content : String
  author : String
  category : String
  slug : String
  excerpt : Option String
  tags : List String
  status : PostStatus
  isPublished : Bool
  publishedAt : Option Nat
  isApproved : Bool
  approvedBy : Option String
  approvedAt : Option Nat
  rejectionReason : Option String
  submittedForApproval : Bool
  submittedAt : Option Nat
  viewCount : Nat
  likeCount : Nat
  commentCount : Nat
deriving DecidableEq, Repr

/-- JS falsiness of an optional string field: absent/null, or empty. -/
def optStrFalsy : Option String → Bool
  | none => true
  | some s => s == ""

/-- First clause of the pre-save middleware:
`if (!this.excerpt && this.content) excerpt = content.substring(0,150)+...`. -/
def excerptStep (p : Post) : Post :=
  if optStrFalsy p.excerpt ∧ p.content ≠ "" then
    { p with excerpt := some (p.content.take 150 ++ "...") }
  else p

/-- Second clause: `if (status === published && !publishedAt)` set
`publishedAt = now` and `isPublished = true`. -/
def publishStep (now : Nat) (p : Post) : Post :=
  if p.status = .published ∧ p.publishedAt = none then
    { p with publishedAt := some now, isPublished := true }
  else p

/-- Third clause: `if (status === pending && !submittedForApproval)` set
`submittedForApproval = true` and `submittedAt = now`. -/
def pendingStep (now : Nat) (p : Post) : Post :=
  if p.status = .pending ∧ p.submittedForApproval = false then
    { p with submittedForApproval := true, submittedAt := some now }
  else p

/-- Fourth clause: `if (status === published && !isApproved)` set
`isApproved = true`. -/
def approvedStep (p : Post) : Post :=
  if p.status = .published ∧ p.isApproved = false then
    { p with isApproved := true }
  else p

/-- The `postSchema.pre('save')` middleware: the four clauses in source
order. Every instance method below ends in `this.save()`, which runs it. -/
def preSaveHook (now : Nat) (p : Post) : Post :=
  approvedStep (pendingStep now (publishStep now (excerptStep p)))

/-- `postSchema.methods.submitForApproval` followed by `save()`. -/
def Post.submitForApproval (p : Post) (now : Nat) : Post :=
  preSaveHook now
    { p with status := .pending, submittedForApproval := true, submittedAt := some now }

/-- `postSchema.methods.approve(adminId)` followed by `save()`. -/
def Post.approve (p : Post) (adminId : String) (now : Nat) : Post :=
  preSaveHook now
    { p with status := .published, isApproved := true, approvedBy := some adminId,
             approvedAt := some now, publishedAt := some now, isPublished := true,
             rejectionReason := none }

/-- `postSchema.methods.reject(adminId, reason)` followed by `save()`. -/
def Post.reject (p : Post) (adminId reason : String) (now : Nat) : Post :=
  preSaveHook now
    { p with status := .rejected, isApproved := false, approvedBy := some adminId,
             approvedAt := some now, rejectionReason := some reason }

/- ===================== routes/posts.js ================================= -/

/-- The authenticated principal attached by the `authenticate` middleware
(`req.user`): its ObjectId and role string. -/
structure Requester where
  id : String
  role : String
deriving DecidableEq, Repr

/-- Outcome of a single-post route: HTTP status code, and the post as stored
after the request (`none` when the id matches no document). -/
structure HandlerResult where
  status : Nat
  post : Option Post
deriving DecidableEq, Repr

/-- `POST /api/posts/:id/submit` (authenticated): 404 when the post is
missing, 403 when the requester is not the author, 400 unless the status is
draft, else `submitForApproval` runs and 200 is returned. -/
def submitPostHandler (u : Requester) (stored : Option Post) (now : Nat) : HandlerResult :=
  match stored with
  | none => { status := 404, post := none }
  | some p =>
    if p.author ≠ u.id then { status := 403, post := some p }
    else if p.status ≠ .draft then { status := 400, post := some p }
    else { status := 200, post := some (p.submitForApproval now) }

/-- The `authorize('admin')` middleware applied to an authenticated
requester: `hasRole(req.user, ['admin'])`. -/
def authorizeAdmin (u : Requester) : Bool :=
  hasRole (some { role := some u.role }) (.multiple ["admin"])

/-- `POST /api/posts/:id/approve` (`[authenticate, authorize('admin')]`):
403 unless the requester has the admin role, 404 when the post is missing,
400 unless the status is pending, else `approve(req.user._id)` runs. -/
def approvePostHandler (u : Requester) (stored : Option Post) (now : Nat) : HandlerResult :=
  if authorizeAdmin u = false then { status := 403, post := stored }
  else
    match stored with
    | none => { status := 404, post := none }
    | some p =>
      if p.status ≠ .pending then { status := 400, post := some p }
      else { status := 200, post := some (p.approve u.id now) }

/-- The `body('reason').isLength({ min: 10, max: 500 })` check of the reject
route: an absent field fails, a string must have length in [10, 500]. The
length is checked before the `.trim()` sanitizer runs. -/
def reasonValid : Option String → Bool
  | none => false
  | some r => decide (10 ≤ r.length) && decide (r.length ≤ 500)

/-- `POST /api/posts/:id/reject`: after `authenticate` and
`authorize('admin')`, the validation result is checked before the post is
even fetched, so a validation failure leaves the store untouched; then 404 /
pending-guard / `reject(req.user._id, reason)` as in the source. The reason
reaching the method is the `.trim()`-sanitized body value. -/
def rejectPostHandler (u : Requester) (stored : Option Post) (reason : Option String)
    (now : Nat) : HandlerResult :=
  if authorizeAdmin u = false then { status := 403, post := stored }
  else if reasonValid reason = false then { status := 400, post := stored }
  else
    match stored with
    | none => { status := 404, post := none }
    | some p =>
      if p.status ≠ .pending then { status := 400, post := some p }
      else { status := 200, post := some (p.reject u.id ((reason.getD "").trim) now) }

/-- A `PUT /api/posts/:id` request body: every field is optional, and the
body is handed to `findByIdAndUpdate` unfiltered, so schema paths that the
route never validates — `author` in particular — update the document when
present. The `status` string is modelled by the enum it is cast to. -/
structure UpdateBody where
  title : Option String
  content : Option String
  category : Option String
  excerpt : Option String
  tags : Option (List String)
  status : Option PostStatus
  author : Option String
deriving DecidableEq, Repr

/-- An `.optional()` express-validator check: absent fields pass. -/
def optCheck {α : Type} (f : α → Bool) : Option α → Bool
  | none => true
  | some x => f x

/-- `isLength({ min, max })` on a string. -/
def strLenBetween (lo hi : Nat) (s : String) : Bool :=
  decide (lo ≤ s.length) && decide (s.length ≤ hi)

/-- express-validator `isMongoId`: a 24-character hex string. -/
def isMongoId (s : String) : Bool :=
  s.length == 24 && s.data.all (fun c =>
    decide ('0' ≤ c ∧ c ≤ '9') || decide ('a' ≤ c ∧ c ≤ 'f') || decide ('A' ≤ c ∧ c ≤ 'F'))

/-- The validator chain of `PUT /api/posts/:id`: title 3–200, content
10–10000, category a Mongo id, excerpt ≤ 300, each tag ≤ 50, and
`status` restricted by `isIn(['draft', 'published', 'archived'])`.
No validator inspects `author`. -/
def putBodyValid (b : UpdateBody) : Bool :=
  optCheck (strLenBetween 3 200) b.title &&
  optCheck (strLenBetween 10 10000) b.content &&
  optCheck isMongoId b.category &&
  optCheck (fun e => decide (e.length ≤ 300)) b.excerpt &&
  optCheck (fun ts => ts.all (fun t => decide (t.length ≤ 50))) b.tags &&
  optCheck (fun st => [PostStatus.draft, .published, .archived].contains st) b.status

/-- `Post.findByIdAndUpdate(id, req.body, { new: true, runValidators: true })`:
each body field that is present replaces the stored one. `findByIdAndUpdate`
does not run the `pre('save')` middleware. -/
def applyUpdate (b : UpdateBody) (p : Post) : Post :=
  { p with
    title := b.title.getD p.title,
    content := b.content.getD p.content,
    category := b.category.getD p.category,
    excerpt := match b.excerpt with | none => p.excerpt | some e => some e,
    tags := b.tags.getD p.tags,
    status := b.status.getD p.status,
    author := b.author.getD p.author }

/-- `PUT /api/posts/:id`: validation result first (400, nothing fetched or
written), then 404, then the author-or-admin check (403), then the update. -/
def putPostHandler (u : Requester) (stored : Option Post) (b : UpdateBody) : HandlerResult :=
  if putBodyValid b = false then { status := 400, post := stored }
  else
    match stored with
    | none => { status := 404, post := none }
    | some p =>
      if p.author ≠ u.id ∧ u.role ≠ "admin" then { status := 403, post := some p }
      else { status := 200, post := some (applyUpdate b p) }

/-- The `pagination` object of the list responses. -/
structure Pagination where
  currentPage : Nat
  totalPages : Nat
  totalItems : Nat
  itemsPerPage : Nat
  hasNextPage : Bool
  hasPrevPage : Bool
deriving DecidableEq, Repr

/-- `Math.ceil(a / b)` for naturals (the JS division is on floats; for the
integer operands present it is exact ceiling division, `b > 0`). -/
def jsCeilDiv (a b : Nat) : Nat := (a + b - 1) / b

/-- Core of `GET /api/posts` (and its `my-posts` / `pending/approval`
variants): over the list of records matching the query in sort order,
`skip = (page - 1) * limit` then a window of `limit` records, and the
pagination object `{ currentPage: page, totalPages: ceil(total / limit),
totalItems: total, itemsPerPage: limit, hasNextPage: page < totalPages,
hasPrevPage: page > 1 }`. -/
def listPostsHandler (page limit : Nat) (matching : List Post) : List Post × Pagination :=
  let skip := (page - 1) * limit
  let window := (matching.drop skip).take limit
  let total := matching.length
  let totalPages := jsCeilDiv total limit
  (window,
   { currentPage := page, totalPages := totalPages, totalItems := total,
     itemsPerPage := limit,
     hasNextPage := decide (page < totalPages),
     hasPrevPage := decide (1 < page) })

/- ===================== concrete sample data ============================ -/

/-- A draft post authored by the user with id `aaaaaaaaaaaaaaaaaaaaaaaa`. -/
def alicePost : Post :=
  { title := "Testing basics", content := "This is some sample content for the post.",
    author := "aaaaaaaaaaaaaaaaaaaaaaaa", category := "cccccccccccccccccccccccc",
    slug := "testing-basics", excerpt := some "A short excerpt", tags := ["testing"],
    status := .draft, isPublished := false, publishedAt := none, isApproved := false,
    approvedBy := none, approvedAt := none, rejectionReason := none,
    submittedForApproval := false, submittedAt := none,
    viewCount := 0, likeCount := 0, commentCount := 0 }

/-- The same post after submission, awaiting approval. -/
def pendingPost : Post :=
  { alicePost with status := .pending, submittedForApproval := true, submittedAt := some 3 }

/-- The author of `alicePost`, authenticated with the plain user role. -/
def alice : Requester := { id := "aaaaaaaaaaaaaaaaaaaaaaaa", role := "user" }

/-- An authenticated administrator. -/
def adminUser : Requester := { id := "dddddddddddddddddddddddd", role := "admin" }

/-- A `PUT` body whose only field is `status: published`. -/
def publishBody : UpdateBody :=
  { title := none, content := none, category := none, excerpt := none,
    tags := none, status := some .published, author := none }

/-- A `PUT` body whose only field is a fresh (castable) `author` id. -/
def authorBody : UpdateBody :=
  { title := none, content := none, category := none, excerpt := none,
    tags := none, status := none, author := some "bbbbbbbbbbbbbbbbbbbbbbbb" }

/-- An empty `PUT` body. -/
def emptyBody : UpdateBody :=
  { title := none, content := none, category := none, excerpt := none,
    tags := none, status := none, author := none }

/-- A sample admin token payload. -/
def sampleUser : TokenPayload :=
  { id := "dddddddddddddddddddddddd", username := "rootadmin",
    email := "admin@example.com", role := "admin" }

/- ===================== lifecycle helper lemmas ========================= -/

theorem submitForApproval_fields (p : Post) (now : Nat) :
    (p.submitForApproval now).status = .pending
    ∧ (p.submitForApproval now).submittedForApproval = true
    ∧ (p.submitForApproval now).submittedAt = some now := by
  unfold Post.submitForApproval preSaveHook approvedStep pendingStep publishStep excerptStep
  split_ifs <;> simp_all

theorem approve_fields (p : Post) (adminId : String) (now : Nat) :
    (p.approve adminId now).status = .published
    ∧ (p.approve adminId now).isApproved = true
    ∧ (p.approve adminId now).approvedBy = some adminId
    ∧ (p.approve adminId now).approvedAt = some now
    ∧ (p.approve adminId now).publishedAt = some now
    ∧ (p.approve adminId now).isPublished = true
    ∧ (p.approve adminId now).rejectionReason = none := by
  unfold Post.approve preSaveHook approvedStep pendingStep publishStep excerptStep
  split_ifs <;> simp_all

theorem reject_fields (p : Post) (adminId reason : String) (now : Nat) :
    (p.reject adminId reason now).status = .rejected
    ∧ (p.reject adminId reason now).isApproved = false
    ∧ (p.reject adminId reason now).approvedBy = some adminId
    ∧ (p.reject adminId reason now).approvedAt = some now
    ∧ (p.reject adminId reason now).rejectionReason = some reason := by
  unfold Post.reject preSaveHook approvedStep pendingStep publishStep excerptStep
  split_ifs <;> simp_all

theorem authorizeAdmin_of_admin (u : Requester) (h : u.role = "admin") :
    authorizeAdmin u = true := by
  simp only [authorizeAdmin, hasRole, RoleReq.toList, h]
  decide

/- ===================== claims ========================================== -/

/-- C1: for an admin request, approving a post whose status is not pending
yields 400 with the post unchanged; approving a pending post runs
`approve(adminId)` and transitions it to status published with
`isApproved = true`, `approvedBy = adminId`, non-null `approvedAt` and
`publishedAt`, `isPublished = true`, and `rejectionReason` cleared. -/
theorem approve_route_correct (u : Requester) (p : Post) (now : Nat)
    (hadmin : u.role = "admin") :
    (p.status ≠ .pending → approvePostHandler u (some p) now = ⟨400, some p⟩)
    ∧ (p.status = .pending →
        approvePostHandler u (some p) now = ⟨200, some (p.approve u.id now)⟩
        ∧ (p.approve u.id now).status = .published
        ∧ (p.approve u.id now).isApproved = true
        ∧ (p.approve u.id now).approvedBy = some u.id
        ∧ (p.approve u.id now).approvedAt ≠ none
        ∧ (p.approve u.id now).publishedAt ≠ none
        ∧ (p.approve u.id now).isPublished = true
        ∧ (p.approve u.id now).rejectionReason = none) := by
  have hauth := authorizeAdmin_of_admin u hadmin
  obtain ⟨h1, h2, h3, h4, h5, h6, h7⟩ := approve_fields p u.id now
  constructor
  · intro hne
    simp [approvePostHandler, hauth, hne]
  · intro hp
    exact ⟨by simp [approvePostHandler, hauth, hp], h1, h2, h3, by simp [h4], by simp [h5], h6, h7⟩

/-- Witness for C1: an admin approving the concrete pending post. -/
theorem approve_route_correct_witness :
    approvePostHandler adminUser (some pendingPost) 7 =
      ⟨200, some (pendingPost.approve adminUser.id 7)⟩ :=
  ((approve_route_correct adminUser pendingPost 7 rfl).2 rfl).1

/-- C2: an admin reject request whose reason is absent, shorter than 10 or
longer than 500 characters fails with 400 before any state change; on a
pending post with a valid reason the route succeeds and
`reject(adminId, reason)` sets status rejected, `isApproved = false`,
`approvedBy = adminId`, non-null `approvedAt`, and stores the reason. -/
theorem reject_route_correct (u : Requester) (p : Post) (stored : Option Post)
    (reason : Option String) (r : String) (now : Nat) (hadmin : u.role = "admin") :
    (reasonValid reason = false → rejectPostHandler u stored reason now = ⟨400, stored⟩)
    ∧ (p.status = .pending → 10 ≤ r.length → r.length ≤ 500 →
        rejectPostHandler u (some p) (some r) now = ⟨200, some (p.reject u.id r.trim now)⟩)
    ∧ ((p.reject u.id r now).status = .rejected
       ∧ (p.reject u.id r now).isApproved = false
       ∧ (p.reject u.id r now).approvedBy = some u.id
       ∧ (p.reject u.id r now).approvedAt = some now
       ∧ (p.reject u.id r now).rejectionReason = some r) := by
  have hauth := authorizeAdmin_of_admin u hadmin
  refine ⟨?_, ?_, reject_fields p u.id r now⟩
  · intro hv
    simp [rejectPostHandler, hauth, hv]
  · intro hp hr1 hr2
    simp [rejectPostHandler, hauth, reasonValid, hr1, hr2, hp]

/-- Witness for C2: an admin rejecting the concrete pending post with a
22-character reason. -/
theorem reject_route_correct_witness :
    rejectPostHandler adminUser (some pendingPost) (some "Needs more detail on X") 9 =
      ⟨200, some (pendingPost.reject adminUser.id ("Needs more detail on X".trim) 9)⟩ :=
  (reject_route_correct adminUser pendingPost (some pendingPost)
      (some "Needs more detail on X") "Needs more detail on X" 9 rfl).2.1 rfl
    (by decide) (by decide)

/-- C3: submitting a post the requester did not author yields 403; a
non-draft post yields 400 with the post unchanged; a draft post by its
author runs `submitForApproval`, which sets status pending,
`submittedForApproval = true`, and a non-null `submittedAt`. -/
theorem submit_route_correct (u : Requester) (p : Post) (now : Nat) :
    (p.author ≠ u.id → submitPostHandler u (some p) now = ⟨403, some p⟩)
    ∧ (p.author = u.id → p.status ≠ .draft → submitPostHandler u (some p) now = ⟨400, some p⟩)
    ∧ (p.author = u.id → p.status = .draft →
        submitPostHandler u (some p) now = ⟨200, some (p.submitForApproval now)⟩
        ∧ (p.submitForApproval now).status = .pending
        ∧ (p.submitForApproval now).submittedForApproval = true
        ∧ (p.submitForApproval now).submittedAt = some now) := by
  obtain ⟨h1, h2, h3⟩ := submitForApproval_fields p now
  refine ⟨?_, ?_, ?_⟩
  · intro hne; simp [submitPostHandler, hne]
  · intro ha hs; simp [submitPostHandler, ha, hs]
  · intro ha hs
    exact ⟨by simp [submitPostHandler, ha, hs], h1, h2, h3⟩

/-- Witness for C3: the author submitting the concrete draft post. -/
theorem submit_route_correct_witness :
    submitPostHandler alice (some alicePost) 3 = ⟨200, some (alicePost.submitForApproval 3)⟩ :=
  ((submit_route_correct alice alicePost 3).2.2 rfl rfl).1

/-- C7: verifying a freshly generated, unexpired token recovers the signed
id, username, email and role; verifying a token whose signature does not
match its claims, or whose claims are expired, fails. -/
theorem token_roundtrip (user : TokenPayload) (tok : Jwt) (now t : Nat) :
    (t < now + sevenDays →
      verifyToken (generateToken user now) t =
        .ok { payload := user, iat := now, exp := now + sevenDays,
              iss := "mern-testing-app", aud := "mern-testing-users" })
    ∧ (tok.sig ≠ { key := JWT_SECRET, signed := tok.claims } →
        verifyToken tok t = .error "Invalid or expired token")
    ∧ (tok.claims.exp ≤ t → verifyToken tok t = .error "Invalid or expired token") := by
  refine ⟨?_, ?_, ?_⟩
  · intro h
    simp [verifyToken, generateToken, jwtSign, jwtVerify, not_le.mpr h]
  · intro h
    simp [verifyToken, jwtVerify, h]
  · intro h
    by_cases hs : tok.sig = { key := JWT_SECRET, signed := tok.claims }
    · simp [verifyToken, jwtVerify, hs, h]
    · simp [verifyToken, jwtVerify, hs]

/-- Witness for C7: round trip on a concrete admin principal one second
after issuance. -/
theorem token_roundtrip_witness :
    verifyToken (generateToken sampleUser 0) 1 =
      .ok { payload := sampleUser, iat := 0, exp := 0 + sevenDays,
            iss := "mern-testing-app", aud := "mern-testing-users" } :=
  (token_roundtrip sampleUser (generateToken sampleUser 0) 0 1).1 (by decide)

/-- C4 counterexample: a single `PUT /api/posts/:id` request with body
`{ status: published }` passes the route validator (whose allowed list is
draft/published/archived), passes the author check, and moves the concrete
draft post directly to published — no intermediate pending state exists. -/
theorem draft_to_published_counterexample :
    alicePost.status = .draft
    ∧ putBodyValid publishBody = true
    ∧ putPostHandler alice (some alicePost) publishBody =
        ⟨200, some (applyUpdate publishBody alicePost)⟩
    ∧ (applyUpdate publishBody alicePost).status = .published := by decide

/-- C4 (amended): the dedicated lifecycle routes do follow the state
machine — a successful submit goes draft to pending, a successful approve
pending to published, a successful reject pending to rejected — and the
update validator can never set pending or rejected directly; but it does
accept published, so draft to published in one update is possible. -/
theorem lifecycle_routes_follow_state_machine (u : Requester) (p q : Post)
    (reason : Option String) (b : UpdateBody) (now : Nat) :
    (submitPostHandler u (some p) now = ⟨200, some q⟩ →
       p.status = .draft ∧ q.status = .pending)
    ∧ (approvePostHandler u (some p) now = ⟨200, some q⟩ →
       p.status = .pending ∧ q.status = .published)
    ∧ (rejectPostHandler u (some p) reason now = ⟨200, some q⟩ →
       p.status = .pending ∧ q.status = .rejected)
    ∧ (putBodyValid b = true →
       b.status ≠ some .pending ∧ b.status ≠ some .rejected) := by
  refine ⟨?_, ?_, ?_, ?_⟩
  · intro h
    simp only [submitPostHandler] at h
    split_ifs at h with h1 h2
    · simp at h
    · simp at h
    · simp only [HandlerResult.mk.injEq, Option.some.injEq] at h
      obtain ⟨-, hq⟩ := h
      subst hq
      exact ⟨not_not.mp h2, (submitForApproval_fields p now).1⟩
  · intro h
    simp only [approvePostHandler] at h
    split_ifs at h with h1 h2
    · simp at h
    · simp at h
    · simp only [HandlerResult.mk.injEq, Option.some.injEq] at h
      obtain ⟨-, hq⟩ := h
      subst hq
      exact ⟨not_not.mp h2, (approve_fields p u.id now).1⟩
  · intro h
    simp only [rejectPostHandler] at h
    split_ifs at h with h1 h2 h3
    · simp at h
    · simp at h
    · simp at h
    · simp only [HandlerResult.mk.injEq, Option.some.injEq] at h
      obtain ⟨-, hq⟩ := h
      subst hq
      exact ⟨not_not.mp h3, (reject_fields p u.id ((reason.getD "").trim) now).1⟩
  · intro hv
    cases hb : b.status with
    | none => exact ⟨by simp, by simp⟩
    | some st =>
      have hmem : ([PostStatus.draft, .published, .archived].contains st) = true := by
        simp only [putBodyValid, hb, Bool.and_eq_true, optCheck] at hv
        exact hv.2
      cases st <;> simp_all

/-- Witness for C4 (amended): a successful concrete submit starts from
draft and lands in pending. -/
theorem lifecycle_routes_witness :
    alicePost.status = .draft ∧ (alicePost.submitForApproval 3).status = .pending :=
  (lifecycle_routes_follow_state_machine alice alicePost (alicePost.submitForApproval 3)
      none emptyBody 3).1 (by decide)

/-- C5 counterexample: the PUT route hands `req.body` unfiltered to
`findByIdAndUpdate`, and no validator inspects `author`; a body carrying an
`author` field therefore changes the author reference of the stored post. -/
theorem put_changes_author_counterexample :
    alicePost.author = "aaaaaaaaaaaaaaaaaaaaaaaa"
    ∧ putPostHandler alice (some alicePost) authorBody =
        ⟨200, some (applyUpdate authorBody alicePost)⟩
    ∧ (applyUpdate authorBody alicePost).author = "bbbbbbbbbbbbbbbbbbbbbbbb" := by decide

/-- C5 (amended): the author reference survives every PUT whose request
body does not carry an `author` field, whatever the outcome of the
request. -/
theorem put_preserves_author (u : Requester) (p : Post) (b : UpdateBody)
    (h : b.author = none) :
    (putPostHandler u (some p) b).post.map Post.author = some p.author := by
  simp only [putPostHandler]
  split_ifs with h1 h2
  · simp
  · simp
  · simp [applyUpdate, h]

/-- Witness for C5 (amended): an empty-body PUT on the concrete post keeps
its author. -/
theorem put_preserves_author_witness :
    (putPostHandler alice (some alicePost) emptyBody).post.map Post.author =
      some alicePost.author :=
  put_preserves_author alice alicePost emptyBody rfl

/-- C6: a password string meeting all five strength rules validates with an
empty error list; and for every input, each of the five messages appears in
the error list exactly when its rule fails, independently of the other
rules. -/
theorem validatePasswordStrength_rules :
    (∀ s : String, 8 ≤ s.length → s.data.any isLowerAZ = true →
        s.data.any isUpperAZ = true →
        s.data.any isDigit09 = true → s.data.any isSpecialChar = true →
        validatePasswordStrength (.str s) = { isValid := true, errors := [] })
    ∧ (∀ p : JSStr,
        (msgLength ∈ (validatePasswordStrength p).errors ↔ lengthRuleFails p = true)
        ∧ (msgLower ∈ (validatePasswordStrength p).errors ↔ testLower p = false)
        ∧ (msgUpper ∈ (validatePasswordStrength p).errors ↔ testUpper p = false)
        ∧ (msgNumber ∈ (validatePasswordStrength p).errors ↔ testDigit p = false)
        ∧ (msgSpecial ∈ (validatePasswordStrength p).errors ↔ testSpecial p = false)) := by
  constructor
  · intro s h8 hl hu hd hsp
    have hne : ¬(s = "") := by
      intro e
      subst e
      have h0 : ("" : String).length = 0 := rfl
      omega
    have hlf : lengthRuleFails (.str s) = false := by
      simp [lengthRuleFails, hne, Nat.not_lt.mpr h8]
    simp [validatePasswordStrength, hlf, testLower, testUpper, testDigit, testSpecial,
      JSStr.jsToString, hl, hu, hd, hsp]
  · intro p
    cases hL : lengthRuleFails p <;> cases h1 : testLower p <;> cases h2 : testUpper p <;>
      cases h3 : testDigit p <;> cases h4 : testSpecial p <;>
      simp [validatePasswordStrength, hL, h1, h2, h3, h4,
        msgLength, msgLower, msgUpper, msgNumber, msgSpecial]

/-- Witness for C6: a concrete password satisfying all five rules. -/
theorem validatePasswordStrength_rules_witness :
    validatePasswordStrength (.str "Str0ng!pass") = { isValid := true, errors := [] } :=
  validatePasswordStrength_rules.1 "Str0ng!pass"
    (by decide) (by decide) (by decide) (by decide) (by decide)

/-- C10: `validatePasswordStrength` is total on every input shape (the
short-circuit in the length rule means `.length` is never read off a
non-string), its `isValid` flag is true exactly when its error list is
empty, and on null, undefined and the empty string it returns the listed
error sets rather than throwing. -/
theorem validatePasswordStrength_safe :
    (∀ p : JSStr,
        (validatePasswordStrength p).isValid = true ↔
          (validatePasswordStrength p).errors = [])
    ∧ validatePasswordStrength .null =
        { isValid := false, errors := [msgLength, msgUpper, msgNumber, msgSpecial] }
    ∧ validatePasswordStrength .undefined =
        { isValid := false, errors := [msgLength, msgUpper, msgNumber, msgSpecial] }
    ∧ validatePasswordStrength (.str "") =
        { isValid := false,
          errors := [msgLength, msgLower, msgUpper, msgNumber, msgSpecial] } := by
  refine ⟨?_, by decide, by decide, by decide⟩
  intro p
  simp [validatePasswordStrength, List.length_eq_zero]

/-- Witness for C10: the equivalence applied at a concrete valid password. -/
theorem validatePasswordStrength_safe_witness :
    (validatePasswordStrength (.str "Str0ng!pw")).errors = [] :=
  (validatePasswordStrength_safe.1 (.str "Str0ng!pw")).mp (by decide)

/-- C8: the list response reports the current page, the total matching
count, `totalPages` equal to the ceiling of total over limit (`⌈/⌉` is
ceiling division), the next/previous-page booleans, and the skip/limit
window; in particular, page 2 with limit 5 over 12 matching records yields
exactly 5 records, `totalPages = 3`, and both booleans true. -/
theorem listPosts_pagination_correct :
    (∀ (page limit : Nat) (matching : List Post), 1 ≤ limit →
        (listPostsHandler page limit matching).2.currentPage = page
        ∧ (listPostsHandler page limit matching).2.totalItems = matching.length
        ∧ (listPostsHandler page limit matching).2.totalPages = matching.length ⌈/⌉ limit
        ∧ (listPostsHandler page limit matching).2.hasNextPage =
            decide (page < jsCeilDiv matching.length limit)
        ∧ (listPostsHandler page limit matching).2.hasPrevPage = decide (1 < page)
        ∧ (listPostsHandler page limit matching).1 =
            (matching.drop ((page - 1) * limit)).take limit)
    ∧ (∀ matching : List Post, matching.length = 12 →
        (listPostsHandler 2 5 matching).1.length = 5
        ∧ (listPostsHandler 2 5 matching).2.totalPages = 3
        ∧ (listPostsHandler 2 5 matching).2.hasNextPage = true
        ∧ (listPostsHandler 2 5 matching).2.hasPrevPage = true) := by
  constructor
  · intro page limit matching hl
    exact ⟨rfl, rfl, rfl, rfl, rfl, rfl⟩
  · intro matching h
    refine ⟨?_, ?_, ?_, rfl⟩
    · simp [listPostsHandler, List.length_take, List.length_drop, h]
    · simp [listPostsHandler, jsCeilDiv, h]
    · simp [listPostsHandler, jsCeilDiv, h]

/-- Witness for C8: both halves at a concrete 12-record store. -/
theorem listPosts_pagination_witness :
    (listPostsHandler 2 5 (List.replicate 12 alicePost)).1.length = 5
    ∧ (listPostsHandler 2 5 (List.replicate 12 alicePost)).2.currentPage = 2 :=
  ⟨(listPosts_pagination_correct.2 (List.replicate 12 alicePost) (by simp)).1,
   (listPosts_pagination_correct.1 2 5 (List.replicate 12 alicePost) (by decide)).1⟩

/-- C9 counterexample: a principal whose role attribute is present but is
the empty string is falsy in JS, so `hasRole` returns false even though
the attribute is a member of the required set — the claimed equivalence
fails at this input. -/
theorem hasRole_counterexample :
    hasRole (some { role := some "" }) (RoleReq.single "") = false
    ∧ ({ role := some "" } : AuthUser).role = some ""
    ∧ "" ∈ (RoleReq.single "").toList := by decide

/-- C9 (amended): `hasRole` returns true iff the principal exists, carries
a truthy (non-empty) role attribute, and that attribute is a member of the
required role set; an absent principal or an absent role yields false, and
the function is total (never throws). -/
theorem hasRole_spec (user : Option AuthUser) (req : RoleReq) :
    hasRole user req = true ↔
      ∃ au r, user = some au ∧ au.role = some r ∧ r ≠ "" ∧ r ∈ req.toList := by
  cases user with
  | none => simp [hasRole]
  | some au =>
    cases hau : au.role with
    | none => simp [hasRole, hau]
    | some r =>
      by_cases hr : r = ""
      · subst hr
        simp [hasRole, hau]
      · simp only [hasRole, hau, hr, if_false, List.elem_iff]
        constructor
        · intro hm
          exact ⟨au, r, rfl, hau, hr, hm⟩
        · rintro ⟨au2, r2, h2, hau2, -, hm2⟩
          cases h2
          rw [hau] at hau2
          cases hau2
          exact hm2

/-- Witness for C9 (amended): the equivalence applied at a concrete admin
principal. -/
theorem hasRole_spec_witness :
    hasRole (some { role := some "admin" }) (RoleReq.multiple ["admin"]) = true :=
  (hasRole_spec (some { role := some "admin" }) (RoleReq.multiple ["admin"])).mpr
    ⟨{ role := some "admin" }, "admin", rfl, rfl, by decide, by decide⟩
